import Mathlib

/-!
Shallow embedding of the break-cycle engine of the `move-me` repository
(`src/move_me/core/timer.py` and `src/move_me/core/state.py`).

Modelling conventions:
* Time is a `Nat` counting milliseconds; `datetime.now()` becomes an explicit
  `now : Nat` argument threaded through every operation that reads the clock.
* `timedelta` subtraction guarded by `max(timedelta(0), ...)` becomes truncated
  `Nat` subtraction, which is the same function.
* Python `int(td.total_seconds())` becomes flooring division by 1000.
* The statistics / ledger state (`StateManager._state`) is the `Ledger`
  structure; file persistence is irrelevant to the claims and is dropped.
* External effects (notifications, the screen-locker overlay) are modelled as
  an emitted list of `Note` events and an `overlay_active` flag; platform calls
  are modelled as succeeding.
* Each Python method becomes a pure function `TimerState → TimerState × ...`
  returning the mutated state together with emitted notifications and the
  method's return value.
-/

namespace MoveMe

/-- Configuration keys read by `TimerManager` via `config.get`, with the
defaults used at each call site (timer.py). -/
structure Config where
  work_duration_minutes : Nat := 45
  break_duration_minutes : Nat := 5
  daily_override_limit : Nat := 3
  warning_time_seconds : Nat := 30
  auto_lock_enabled : Bool := true
deriving DecidableEq, Repr

/-- The counters of `StateManager._state` (state.py) that the engine touches. -/
structure Ledger where
  overrides_used_today : Nat
  total_overrides : Nat
  total_breaks_taken : Nat
  total_breaks_skipped : Nat
deriving DecidableEq, Repr

/-- `StateManager.can_use_override` (state.py line 85). -/
def can_use_override (l : Ledger) (daily_limit : Nat) : Bool :=
  l.overrides_used_today < daily_limit

/-- `StateManager.use_override` (state.py line 89): checks against the hard cap
999, then increments the daily and lifetime counters; returns success. -/
def use_override (l : Ledger) : Ledger × Bool :=
  if can_use_override l 999 then
    ({ l with
        overrides_used_today := l.overrides_used_today + 1
        total_overrides := l.total_overrides + 1 }, true)
  else (l, false)

/-- `StateManager.record_break_taken` (state.py line 102). -/
def record_break_taken (l : Ledger) : Ledger :=
  { l with total_breaks_taken := l.total_breaks_taken + 1 }

/-- `StateManager.record_break_skipped` (state.py line 109).  Its docstring
says it records a break skipped due to override, but no code in the
repository ever calls it. -/
def record_break_skipped (l : Ledger) : Ledger :=
  { l with total_breaks_skipped := l.total_breaks_skipped + 1 }

/-- `StateManager.get_overrides_remaining_today` (state.py line 115):
`max(0, daily_limit - used)`, which is truncated `Nat` subtraction. -/
def get_overrides_remaining_today (l : Ledger) (daily_limit : Nat) : Nat :=
  daily_limit - l.overrides_used_today

/-- Notification events emitted through `NotificationManager`; the payloads
carry the arguments the timer passes at each call site. -/
inductive Note where
  | breakStarting (duration_minutes : Nat)
  | breakEnding
  | statusNote (message : String)
  | countdownWarning (seconds : Nat)
  | overrideUsed (remaining : Nat)
  | errorNote (message : String)
deriving DecidableEq, Repr

/-- The mutable fields of `TimerManager` plus the ledger it owns and the
engaged/released state of the screen-locker overlay. -/
structure TimerState where
  running : Bool
  paused : Bool
  in_break : Bool
  next_break_time : Option Nat
  break_end_time : Option Nat
  overlay_active : Bool
  ledger : Ledger
deriving DecidableEq, Repr

/-- `TimerManager.__init__` (timer.py lines 26-32). -/
def initState (l : Ledger) : TimerState :=
  { running := false, paused := false, in_break := false
    next_break_time := none, break_end_time := none
    overlay_active := false, ledger := l }

def minutesToMs (m : Nat) : Nat := m * 60000

/-- `TimerManager._schedule_next_break` (timer.py line 188). -/
def schedule_next_break (cfg : Config) (now : Nat) (s : TimerState) : TimerState :=
  { s with next_break_time := some (now + minutesToMs cfg.work_duration_minutes) }

/-- `TimerManager.start` (timer.py line 89). -/
def start (cfg : Config) (now : Nat) (s : TimerState) : TimerState :=
  if s.running then s
  else schedule_next_break cfg now { s with running := true, paused := false }

/-- `TimerManager.time_until_next_break` (timer.py line 76):
`max(0, next_break_time - now)` when a break is scheduled. -/
def time_until_next_break (now : Nat) (s : TimerState) : Option Nat :=
  match s.next_break_time with
  | none => none
  | some nb => some (nb - now)

/-- Text of `show_status` at timer.py line 302. -/
def status_message (remaining : Nat) : String :=
  toString remaining ++ " overrides remaining today"

/-- Text of `show_error` at timer.py line 173. -/
def no_overrides_message (daily_limit : Nat) : String :=
  "No overrides remaining. You have used all " ++ toString daily_limit
    ++ " overrides today"

/-- Text of `show_error` at timer.py line 356. -/
def limit_reached_message : String :=
  "Daily override limit reached. Please complete the break."

/-- `TimerManager._end_break` (timer.py line 275): clear the break flags, hide
the overlay if it is active, reschedule the next break, notify break ending
and, when overrides remain, a status note.  The ledger is not touched. -/
def end_break (cfg : Config) (now : Nat) (s : TimerState) : TimerState × List Note :=
  if s.in_break then
    let s1 : TimerState := { s with in_break := false, break_end_time := none }
    let s2 : TimerState :=
      if s1.overlay_active then { s1 with overlay_active := false } else s1
    let s3 := schedule_next_break cfg now s2
    let remaining := get_overrides_remaining_today s3.ledger cfg.daily_override_limit
    let notes :=
      Note.breakEnding ::
        (if 0 < remaining then [Note.statusNote (status_message remaining)] else [])
    (s3, notes)
  else (s, [])

/-- `TimerManager._start_break` (timer.py line 224): enter the break, set
`break_end_time`, notify, engage the overlay when `auto_lock_enabled`
(platform call modelled as succeeding), and record a break taken. -/
def start_break (cfg : Config) (now : Nat) (s : TimerState) : TimerState × List Note :=
  let s1 : TimerState := { s with
    in_break := true
    break_end_time := some (now + minutesToMs cfg.break_duration_minutes) }
  let s2 : TimerState :=
    if cfg.auto_lock_enabled then { s1 with overlay_active := true } else s1
  let s3 : TimerState := { s2 with ledger := record_break_taken s2.ledger }
  (s3, [Note.breakStarting cfg.break_duration_minutes])

/-- `TimerManager.stop` (timer.py line 108): no-op when not running, else
clear `running` and, when in a break, run `_end_break`. -/
def stop (cfg : Config) (now : Nat) (s : TimerState) : TimerState × List Note :=
  if s.running then
    let s1 : TimerState := { s with running := false }
    if s1.in_break then end_break cfg now s1 else (s1, [])
  else (s, [])

/-- `TimerManager.pause` (timer.py line 124): refused during a break or when
not running; otherwise sets the paused flag.  Returns the success boolean. -/
def pause (s : TimerState) : TimerState × Bool :=
  if s.in_break then (s, false)
  else if s.running then ({ s with paused := true }, true)
  else (s, false)

/-- `TimerManager.resume` (timer.py line 138). -/
def resume (s : TimerState) : TimerState × Bool :=
  if s.running then
    if s.paused then ({ s with paused := false }, true) else (s, false)
  else (s, false)

/-- `TimerManager.force_break` (timer.py line 152): refused during a break,
otherwise runs `_start_break` (scheduled as a task; modelled as immediate). -/
def force_break (cfg : Config) (now : Nat) (s : TimerState) :
    TimerState × List Note × Bool :=
  if s.in_break then (s, [], false)
  else
    let (s1, ns) := start_break cfg now s
    (s1, ns, true)

/-- `TimerManager.end_break_early` (timer.py line 163): refused outside a
break; denied with an error notification when `can_use_override` fails;
otherwise uses an override (return value ignored, as in the source) and ends
the break. -/
def end_break_early (cfg : Config) (now : Nat) (s : TimerState) :
    TimerState × List Note × Bool :=
  if s.in_break then
    if can_use_override s.ledger cfg.daily_override_limit then
      let (l1, _ok) := use_override s.ledger
      let (s2, ns) := end_break cfg now { s with ledger := l1 }
      (s2, ns, true)
    else
      (s, [Note.errorNote (no_overrides_message cfg.daily_override_limit)], false)
  else (s, [], false)

/-- `TimerManager._handle_override` (timer.py line 326): the overlay's
override callback.  Checks `get_overrides_remaining_today`, tries
`use_override`, hides the overlay unconditionally, ends the break, and then
notifies override-used with the pre-increment remaining count minus one. -/
def handle_override (cfg : Config) (now : Nat) (s : TimerState) :
    TimerState × List Note × Bool :=
  let remaining := get_overrides_remaining_today s.ledger cfg.daily_override_limit
  if 0 < remaining then
    let (l1, ok) := use_override s.ledger
    if ok then
      let s1 : TimerState := { s with ledger := l1, overlay_active := false }
      let (s2, ns) := end_break cfg now s1
      (s2, ns ++ [Note.overrideUsed (remaining - 1)], true)
    else ({ s with ledger := l1 }, [], false)
  else (s, [Note.errorNote limit_reached_message], false)

/-- `TimerManager._send_countdown_notifications` (timer.py line 309): nothing
during a break, while paused, or without a scheduled break; nothing when the
remaining time is zero (a zero `timedelta` is falsy in Python); otherwise
fire exactly when the floored remaining seconds equal the warning time. -/
def send_countdown (cfg : Config) (now : Nat) (s : TimerState) : List Note :=
  if s.in_break || s.paused || s.next_break_time.isNone then []
  else
    match time_until_next_break now s with
    | none => []
    | some t =>
      if t = 0 then []
      else if t / 1000 = cfg.warning_time_seconds then
        [Note.countdownWarning cfg.warning_time_seconds]
      else []

/-- One non-paused pass of the body of `TimerManager._timer_loop`
(timer.py lines 199-216) at clock value `now`: start a due break, end a due
break, then run the countdown check.  A paused tick does nothing. -/
def tick (cfg : Config) (now : Nat) (s : TimerState) : TimerState × List Note :=
  if s.paused then (s, [])
  else
    let (s1, n1) :=
      if s.in_break then (s, [])
      else
        match s.next_break_time with
        | some nb => if nb ≤ now then start_break cfg now s else (s, [])
        | none => (s, [])
    let (s2, n2) :=
      if s1.in_break then
        match s1.break_end_time with
        | some be => if be ≤ now then end_break cfg now s1 else (s1, [])
        | none => (s1, [])
      else (s1, [])
    (s2, n1 ++ n2 ++ send_countdown cfg now s2)

/-- Outcome of processing one iteration of the timer loop: either the
iteration completed, or an exception escaped it. -/
inductive TickOutcome where
  | ok
  | raised
deriving DecidableEq, Repr

/-- Control flow of `TimerManager._timer_loop` (timer.py lines 196-222) with
respect to exceptions: the `try`/`except Exception` pair wraps the entire
`while` loop, not the loop body, so the first iteration that raises is the
last iteration that runs — the exception is logged by the handler and the
coroutine returns.  Given the outcome of each scheduled iteration, returns
how many iterations actually run. -/
def timer_loop_runs : List TickOutcome → Nat
  | [] => 0
  | TickOutcome.ok :: rest => 1 + timer_loop_runs rest
  | TickOutcome.raised :: _ => 1

end MoveMe

namespace MoveMe

/-! ### Claim theorems -/

/-- Claim C1, counterexample: with the default configuration, start at time 0
(next break at 2700000 ms), pause immediately, let the clock advance 600000 ms
(a paused tick in between changes nothing), resume: the remaining time until
the next break is 2100000 ms, not the 2700000 ms it was at the moment of
pause — even though `next_break_time` itself was never recomputed.  The code
freezes the absolute deadline, not the remaining duration, so wall-clock time
spent paused erodes the remaining work time. -/
theorem c1_pause_counterexample :
    time_until_next_break 600000
        (resume ((tick { } 600000
          (pause (start { } 0 (initState ⟨0, 0, 0, 0⟩))).1).1)).1
      ≠ time_until_next_break 0 (pause (start { } 0 (initState ⟨0, 0, 0, 0⟩))).1
    ∧ (resume ((tick { } 600000
          (pause (start { } 0 (initState ⟨0, 0, 0, 0⟩))).1).1)).1.next_break_time
      = (pause (start { } 0 (initState ⟨0, 0, 0, 0⟩))).1.next_break_time := by
  decide

/-- Claim C1, amended: while paused, a tick is a complete no-op and `resume`
changes only the paused flag, so `next_break_time` is preserved verbatim
across pause/resume; but the remaining time until the next break is measured
against the live clock, so after the clock advances to `now + d` it is
`nb - (now + d)`, not the value it had at the moment of pause. -/
theorem c1_pause_freezes_deadline_not_remaining (cfg : Config) (now d : Nat)
    (s : TimerState) (h : s.paused = true) :
    tick cfg now s = (s, []) ∧
    (resume s).1.next_break_time = s.next_break_time ∧
    ∀ nb, s.next_break_time = some nb →
      time_until_next_break (now + d) (resume s).1 = some (nb - (now + d)) := by
  refine ⟨by simp [tick, h], ?_, ?_⟩
  · cases hr : s.running <;> cases hp : s.paused <;>
      simp [resume, hr, hp]
  · intro nb hnb
    cases hr : s.running <;> cases hp : s.paused <;>
      simp [resume, hr, hp, time_until_next_break, hnb]

/-- Witness for `c1_pause_freezes_deadline_not_remaining` at a concrete paused
state with the break deadline at 2700000 ms and the clock at 600000 ms. -/
theorem c1_witness :
    (⟨true, true, false, some 2700000, none, false, ⟨0, 0, 0, 0⟩⟩ :
        TimerState).paused = true ∧
    time_until_next_break (600000 + 0)
        (resume (⟨true, true, false, some 2700000, none, false,
          ⟨0, 0, 0, 0⟩⟩ : TimerState)).1 = some (2700000 - (600000 + 0)) :=
  ⟨by decide,
    (c1_pause_freezes_deadline_not_remaining { } 600000 0 _ (by decide)).2.2
      2700000 (by decide)⟩

/-- Claim C2: the `try`/`except` of `_timer_loop` wraps the whole `while`
loop, so an exception escaping the first of two scheduled iterations stops
the loop after one iteration — the second never runs — whereas two clean
iterations both run.  A single bad tick therefore does stop the break
schedule, contradicting the stated error-handling design. -/
theorem c2_loop_dies_on_first_exception :
    timer_loop_runs [TickOutcome.raised, TickOutcome.ok] = 1 ∧
    timer_loop_runs [TickOutcome.ok, TickOutcome.ok] = 2 := by
  decide

end MoveMe

namespace MoveMe

/-- Claim C3: whenever the ledger reports zero overrides remaining today,
both override entry points deny the request, emit an error notification to
the user, and return the engine state completely unchanged —
`end_break_early` (given that a break is in progress, the only situation in
which an override request is meaningful) and the overlay callback
`handle_override` unconditionally. -/
theorem c3_override_denied_at_zero_remaining (cfg : Config) (now : Nat)
    (s : TimerState)
    (h : get_overrides_remaining_today s.ledger cfg.daily_override_limit = 0) :
    (s.in_break = true →
      end_break_early cfg now s =
        (s, [Note.errorNote (no_overrides_message cfg.daily_override_limit)],
          false)) ∧
    handle_override cfg now s =
      (s, [Note.errorNote limit_reached_message], false) := by
  have hle : cfg.daily_override_limit ≤ s.ledger.overrides_used_today := by
    simpa [get_overrides_remaining_today, Nat.sub_eq_zero_iff_le] using h
  have hcan : can_use_override s.ledger cfg.daily_override_limit = false := by
    simp [can_use_override]
    omega
  constructor
  · intro hb
    simp [end_break_early, hb, hcan]
  · simp [handle_override, h]

/-- Witness for `c3_override_denied_at_zero_remaining`: default configuration
(limit 3), in a break with 3 overrides already used today. -/
theorem c3_witness :
    get_overrides_remaining_today
        (⟨true, false, true, none, some 1000, true, ⟨3, 3, 0, 0⟩⟩ :
          TimerState).ledger ({ } : Config).daily_override_limit = 0 ∧
    ((⟨true, false, true, none, some 1000, true, ⟨3, 3, 0, 0⟩⟩ :
          TimerState).in_break = true →
      end_break_early { } 0
          (⟨true, false, true, none, some 1000, true, ⟨3, 3, 0, 0⟩⟩ :
            TimerState) =
        (⟨true, false, true, none, some 1000, true, ⟨3, 3, 0, 0⟩⟩,
          [Note.errorNote (no_overrides_message ({ } : Config).daily_override_limit)],
          false)) ∧
    handle_override { } 0
        (⟨true, false, true, none, some 1000, true, ⟨3, 3, 0, 0⟩⟩ : TimerState) =
      (⟨true, false, true, none, some 1000, true, ⟨3, 3, 0, 0⟩⟩,
        [Note.errorNote limit_reached_message], false) :=
  ⟨by decide,
    c3_override_denied_at_zero_remaining { } 0 _ (by decide)⟩

/-- Claim C4: a successful `end_break_early` during a break (daily limit 1,
none used yet, one break already counted as taken when it started) does move
the engine out of the break and does set the used-today counter to 1, but
the skipped-break counter stays 0 — `record_break_skipped` is never invoked
anywhere in the repository — while the break had already been counted as
taken when it started. -/
theorem c4_no_skipped_statistic :
    (end_break_early ({ daily_override_limit := 1 } : Config) 60000
        (⟨true, false, true, none, some 60000, true, ⟨0, 0, 1, 0⟩⟩ :
          TimerState)).2.2 = true ∧
    (end_break_early ({ daily_override_limit := 1 } : Config) 60000
        (⟨true, false, true, none, some 60000, true, ⟨0, 0, 1, 0⟩⟩ :
          TimerState)).1.in_break = false ∧
    (end_break_early ({ daily_override_limit := 1 } : Config) 60000
        (⟨true, false, true, none, some 60000, true, ⟨0, 0, 1, 0⟩⟩ :
          TimerState)).1.ledger.overrides_used_today = 1 ∧
    (end_break_early ({ daily_override_limit := 1 } : Config) 60000
        (⟨true, false, true, none, some 60000, true, ⟨0, 0, 1, 0⟩⟩ :
          TimerState)).1.ledger.total_breaks_skipped = 0 ∧
    (end_break_early ({ daily_override_limit := 1 } : Config) 60000
        (⟨true, false, true, none, some 60000, true, ⟨0, 0, 1, 0⟩⟩ :
          TimerState)).1.ledger.total_breaks_taken = 1 := by
  decide

/-- Claim C5, counterexample: default warning lead time of 30 s, next break
at 100000 ms.  A tick at 69200 ms (30800 ms ≈ 30 s remaining, floored) fires
the countdown warning and leaves the state unchanged, and a second tick of
the same work phase at 69900 ms (30100 ms remaining) fires it again — two
warnings in one work phase.  A tick at 70500 ms (29500 ms remaining, the
first tick with at most 30 s left) fires nothing at all. -/
theorem c5_warning_counterexample :
    (tick { } 69200
        (⟨true, false, false, some 100000, none, false, ⟨0, 0, 0, 0⟩⟩ :
          TimerState)).2 = [Note.countdownWarning 30] ∧
    (tick { } 69200
        (⟨true, false, false, some 100000, none, false, ⟨0, 0, 0, 0⟩⟩ :
          TimerState)).1 =
      (⟨true, false, false, some 100000, none, false, ⟨0, 0, 0, 0⟩⟩ :
        TimerState) ∧
    (tick { } 69900
        (⟨true, false, false, some 100000, none, false, ⟨0, 0, 0, 0⟩⟩ :
          TimerState)).2 = [Note.countdownWarning 30] ∧
    (tick { } 70500
        (⟨true, false, false, some 100000, none, false, ⟨0, 0, 0, 0⟩⟩ :
          TimerState)).2 = [] := by
  decide

/-- Claim C5, amended: the countdown check carries no per-phase flag; at
every tick taken while working, unpaused and with a scheduled break, the
warning fires exactly when the remaining time is nonzero and its floored
second count equals `warning_time_seconds` — so within one work phase it
fires at each such tick (possibly several, possibly none), not exactly
once. -/
theorem c5_warning_is_exact_second_match (cfg : Config) (now nb : Nat)
    (s : TimerState) (h1 : s.in_break = false) (h2 : s.paused = false)
    (hnb : s.next_break_time = some nb) :
    send_countdown cfg now s =
      if 0 < nb - now ∧ (nb - now) / 1000 = cfg.warning_time_seconds then
        [Note.countdownWarning cfg.warning_time_seconds]
      else [] := by
  simp only [send_countdown, h1, h2, hnb, time_until_next_break,
    Option.isNone_some, Bool.false_or, Bool.or_false, if_false]
  by_cases h0 : nb - now = 0
  · simp [h0]
  · by_cases hw : (nb - now) / 1000 = cfg.warning_time_seconds <;>
      simp [h0, hw, Nat.pos_of_ne_zero h0]

/-- Witness for `c5_warning_is_exact_second_match` at the concrete state of
the counterexample, first tick. -/
theorem c5_witness :
    ((⟨true, false, false, some 100000, none, false, ⟨0, 0, 0, 0⟩⟩ :
        TimerState).in_break = false) ∧
    send_countdown { } 69200
        (⟨true, false, false, some 100000, none, false, ⟨0, 0, 0, 0⟩⟩ :
          TimerState) =
      if 0 < 100000 - 69200 ∧
          (100000 - 69200) / 1000 = ({ } : Config).warning_time_seconds then
        [Note.countdownWarning ({ } : Config).warning_time_seconds]
      else [] :=
  ⟨by decide,
    c5_warning_is_exact_second_match { } 69200 100000 _ (by decide) (by decide)
      (by decide)⟩

end MoveMe

namespace MoveMe

/-- Claim C6: for every configuration with a positive break duration,
starting the engine at `t0` leaves it working, and the tick at exactly
`t0 + workDuration` enters the break with
`break_end_time = t0 + workDuration + breakDuration`. -/
theorem c6_work_elapsed_enters_break (cfg : Config) (t0 : Nat) (l : Ledger)
    (hb : 0 < cfg.break_duration_minutes) :
    (start cfg t0 (initState l)).in_break = false ∧
    (tick cfg (t0 + minutesToMs cfg.work_duration_minutes)
        (start cfg t0 (initState l))).1.in_break = true ∧
    (tick cfg (t0 + minutesToMs cfg.work_duration_minutes)
        (start cfg t0 (initState l))).1.break_end_time =
      some (t0 + minutesToMs cfg.work_duration_minutes
        + minutesToMs cfg.break_duration_minutes) := by
  have hs : start cfg t0 (initState l) =
      ⟨true, false, false,
        some (t0 + minutesToMs cfg.work_duration_minutes), none, false, l⟩ := by
    simp [start, initState, schedule_next_break]
  have hnle : ¬ (t0 + minutesToMs cfg.work_duration_minutes
      + minutesToMs cfg.break_duration_minutes
      ≤ t0 + minutesToMs cfg.work_duration_minutes) := by
    have hpos : 0 < minutesToMs cfg.break_duration_minutes := by
      simpa [minutesToMs] using Nat.mul_pos hb (by norm_num : (0 : Nat) < 60000)
    omega
  rw [hs]
  cases hal : cfg.auto_lock_enabled <;>
    simp [tick, start_break, record_break_taken, hal, hnle]

/-- Witness for `c6_work_elapsed_enters_break` with the default configuration
(45 min work, 5 min break) started at time 0. -/
theorem c6_witness :
    0 < ({ } : Config).break_duration_minutes ∧
    (tick { } (0 + minutesToMs ({ } : Config).work_duration_minutes)
        (start { } 0 (initState ⟨0, 0, 0, 0⟩))).1.break_end_time =
      some (0 + minutesToMs ({ } : Config).work_duration_minutes
        + minutesToMs ({ } : Config).break_duration_minutes) :=
  ⟨by decide,
    (c6_work_elapsed_enters_break { } 0 ⟨0, 0, 0, 0⟩ (by decide)).2.2⟩

/-- Claim C7, counterexample: start at 0 with an all-zero ledger, enter the
break at 2700000 ms, stop at 2760000 ms while in the break.  Stopping does
release the overlay and leave the engine stopped and out of the break, but
the stopped break carries a break-taken statistic — `total_breaks_taken` is 1,
recorded when the break started — so the break was counted as a completion
even though it was cut short administratively. -/
theorem c7_stop_counterexample :
    ((tick { } 2700000 (start { } 0 (initState ⟨0, 0, 0, 0⟩))).1.in_break
      = true) ∧
    ((stop { } 2760000
        (tick { } 2700000 (start { } 0 (initState ⟨0, 0, 0, 0⟩))).1).1.running
      = false) ∧
    ((stop { } 2760000
        (tick { } 2700000
          (start { } 0 (initState ⟨0, 0, 0, 0⟩))).1).1.overlay_active
      = false) ∧
    ((stop { } 2760000
        (tick { } 2700000
          (start { } 0
            (initState ⟨0, 0, 0, 0⟩))).1).1.ledger.total_breaks_taken = 1) ∧
    ((stop { } 2760000
        (tick { } 2700000
          (start { } 0
            (initState ⟨0, 0, 0, 0⟩))).1).1.ledger.total_breaks_skipped = 0) := by
  decide

/-- Claim C7, amended: `stop` while running and in a break releases the
overlay, clears the running and break flags, and itself touches no statistic
(the ledger is returned unchanged — though a break-taken statistic for that
break was already recorded when the break started); a second `stop` on the
result is a no-op, so `stop` is idempotent. -/
theorem c7_stop_releases_and_is_idempotent (cfg : Config) (now now2 : Nat)
    (s : TimerState) (hr : s.running = true) (hb : s.in_break = true) :
    (stop cfg now s).1.running = false ∧
    (stop cfg now s).1.in_break = false ∧
    (stop cfg now s).1.overlay_active = false ∧
    (stop cfg now s).1.ledger = s.ledger ∧
    stop cfg now2 (stop cfg now s).1 = ((stop cfg now s).1, []) := by
  cases ho : s.overlay_active <;>
    simp [stop, end_break, schedule_next_break, hr, hb, ho]

/-- Witness for `c7_stop_releases_and_is_idempotent` at the concrete in-break
state reached in the counterexample. -/
theorem c7_witness :
    ((⟨true, false, true, some 2700000, some 3000000, true, ⟨0, 0, 1, 0⟩⟩ :
        TimerState).running = true) ∧
    (stop { } 2760000
        (⟨true, false, true, some 2700000, some 3000000, true, ⟨0, 0, 1, 0⟩⟩ :
          TimerState)).1.ledger =
      (⟨true, false, true, some 2700000, some 3000000, true, ⟨0, 0, 1, 0⟩⟩ :
        TimerState).ledger :=
  ⟨by decide,
    (c7_stop_releases_and_is_idempotent { } 2760000 0 _ (by decide)
      (by decide)).2.2.2.1⟩

/-- Claim C8: `pause` during a break is rejected — it returns the not-paused
boolean `false` and the state completely unchanged. -/
theorem c8_pause_rejected_in_break (s : TimerState) (h : s.in_break = true) :
    pause s = (s, false) := by
  simp [pause, h]

/-- Witness for `c8_pause_rejected_in_break` at a concrete in-break state. -/
theorem c8_witness :
    ((⟨true, false, true, none, some 3000000, true, ⟨0, 0, 1, 0⟩⟩ :
        TimerState).in_break = true) ∧
    pause (⟨true, false, true, none, some 3000000, true, ⟨0, 0, 1, 0⟩⟩ :
        TimerState) =
      (⟨true, false, true, none, some 3000000, true, ⟨0, 0, 1, 0⟩⟩, false) :=
  ⟨by decide, c8_pause_rejected_in_break _ (by decide)⟩

/-- Claim C9, counterexample: in a break with the overlay engaged, no
overrides used and the default limit 3, `end_break_early` and the overlay
callback `handle_override` reach the same final state and the same grant
decision but emit different notification sequences — only the callback path
appends the override-used notification.  The two triggers are separate code
paths, not one funnel. -/
theorem c9_notifications_differ :
    (end_break_early { } 60000
        (⟨true, false, true, none, some 120000, true, ⟨0, 0, 1, 0⟩⟩ :
          TimerState)).2.1 ≠
      (handle_override { } 60000
        (⟨true, false, true, none, some 120000, true, ⟨0, 0, 1, 0⟩⟩ :
          TimerState)).2.1 ∧
    (end_break_early { } 60000
        (⟨true, false, true, none, some 120000, true, ⟨0, 0, 1, 0⟩⟩ :
          TimerState)).1 =
      (handle_override { } 60000
        (⟨true, false, true, none, some 120000, true, ⟨0, 0, 1, 0⟩⟩ :
          TimerState)).1 ∧
    (end_break_early { } 60000
        (⟨true, false, true, none, some 120000, true, ⟨0, 0, 1, 0⟩⟩ :
          TimerState)).2.2 =
      (handle_override { } 60000
        (⟨true, false, true, none, some 120000, true, ⟨0, 0, 1, 0⟩⟩ :
          TimerState)).2.2 := by
  decide

/-- Claim C9, amended: while in a break and below the ledger's internal 999
cap, the two override trigger paths make the same grant/deny decision and
produce the same final engine and ledger state; their notifications differ
(see `c9_notifications_differ`). -/
theorem c9_same_decision_same_state (cfg : Config) (now : Nat)
    (s : TimerState) (hb : s.in_break = true)
    (hcap : s.ledger.overrides_used_today < 999) :
    (end_break_early cfg now s).1 = (handle_override cfg now s).1 ∧
    (end_break_early cfg now s).2.2 = (handle_override cfg now s).2.2 := by
  by_cases hu : s.ledger.overrides_used_today < cfg.daily_override_limit
  · have hcan : can_use_override s.ledger cfg.daily_override_limit = true := by
      simp [can_use_override, hu]
    have hrem : 0 < get_overrides_remaining_today s.ledger
        cfg.daily_override_limit := by
      simp [get_overrides_remaining_today]
      omega
    have hok : can_use_override s.ledger 999 = true := by
      simp [can_use_override]
      omega
    cases ho : s.overlay_active <;>
      simp [end_break_early, handle_override, hb, hcan, hrem, hok,
        use_override, end_break, ho, schedule_next_break]
  · have hcan : can_use_override s.ledger cfg.daily_override_limit = false := by
      simp [can_use_override, hu]
    have hrem : get_overrides_remaining_today s.ledger
        cfg.daily_override_limit = 0 := by
      simp [get_overrides_remaining_today]
      omega
    simp [end_break_early, handle_override, hb, hcan, hrem]

/-- Witness for `c9_same_decision_same_state` at the counterexample state. -/
theorem c9_witness :
    ((⟨true, false, true, none, some 120000, true, ⟨0, 0, 1, 0⟩⟩ :
        TimerState).in_break = true) ∧
    (end_break_early { } 60000
        (⟨true, false, true, none, some 120000, true, ⟨0, 0, 1, 0⟩⟩ :
          TimerState)).1 =
      (handle_override { } 60000
        (⟨true, false, true, none, some 120000, true, ⟨0, 0, 1, 0⟩⟩ :
          TimerState)).1 :=
  ⟨by decide,
    (c9_same_decision_same_state { } 60000 _ (by decide) (by decide)).1⟩

/-- Claim C10: `force_break` during a break returns `false` and leaves the
whole state — phase, `break_end_time`, `next_break_time`, ledger — unchanged;
a break in progress cannot be restarted or rescheduled. -/
theorem c10_force_break_rejected_in_break (cfg : Config) (now : Nat)
    (s : TimerState) (h : s.in_break = true) :
    force_break cfg now s = (s, [], false) := by
  simp [force_break, h]

/-- Witness for `c10_force_break_rejected_in_break` at a concrete in-break
state. -/
theorem c10_witness :
    ((⟨true, false, true, some 2700000, some 3000000, true, ⟨0, 0, 1, 0⟩⟩ :
        TimerState).in_break = true) ∧
    force_break { } 2800000
        (⟨true, false, true, some 2700000, some 3000000, true, ⟨0, 0, 1, 0⟩⟩ :
          TimerState) =
      (⟨true, false, true, some 2700000, some 3000000, true, ⟨0, 0, 1, 0⟩⟩,
        [], false) :=
  ⟨by decide, c10_force_break_rejected_in_break { } 2800000 _ (by decide)⟩

end MoveMe
